import Mathlib

/-
  Verification development for the spothero/tieredcache Go library.

  We give a shallow embedding of the orchestration code:
  - `tieredcache.go`   : TieredCache fallback reads / write-through writes / Close
  - `localcache.go`    : LocalCache adapter over the in-process byte-cache engine
  - the remote cache file : RemoteCache adapter over the pooled clustered store,
    the shared-pool singleton lifecycle, and the fuzzy-delete protocol

  External collaborators (the bigcache engine, the Redis store, encoders) are
  modelled as key-to-bytes maps or as oracle functions, matching the spec's
  "external collaborator" boundary.  Go errors are `Option Err` (non-nil error
  = `some`), and Go `([]byte, error)` results are pairs `Bytes × Option Err`.
-/

namespace TieredCacheProof

/-- Byte strings stored in the caches. -/
abbrev Bytes := List Nat

/-- Go `error` payload; `Option Err` models a nilable Go error. -/
abbrev Err := String

/-! ## Metrics (`tieredcache_metrics.go`)

`CacheMetrics` is the eight increment-only counters of the `CacheMetrics`
interface.  Each recording method bumps exactly one counter. -/

structure CacheMetrics where
  hits : Nat
  misses : Nat
  sets : Nat
  setCollisions : Nat
  deleteHits : Nat
  deleteMisses : Nat
  purgeHits : Nat
  purgeMisses : Nat
deriving DecidableEq, Repr

def CacheMetrics.zero : CacheMetrics := ⟨0, 0, 0, 0, 0, 0, 0, 0⟩

def CacheMetrics.hit (m : CacheMetrics) : CacheMetrics := { m with hits := m.hits + 1 }

def CacheMetrics.miss (m : CacheMetrics) : CacheMetrics := { m with misses := m.misses + 1 }

def CacheMetrics.set (m : CacheMetrics) : CacheMetrics := { m with sets := m.sets + 1 }

def CacheMetrics.setCollision (m : CacheMetrics) : CacheMetrics :=
  { m with setCollisions := m.setCollisions + 1 }

def CacheMetrics.deleteHit (m : CacheMetrics) : CacheMetrics :=
  { m with deleteHits := m.deleteHits + 1 }

def CacheMetrics.deleteMiss (m : CacheMetrics) : CacheMetrics :=
  { m with deleteMisses := m.deleteMisses + 1 }

def CacheMetrics.purgeHit (m : CacheMetrics) : CacheMetrics :=
  { m with purgeHits := m.purgeHits + 1 }

def CacheMetrics.purgeMiss (m : CacheMetrics) : CacheMetrics :=
  { m with purgeMisses := m.purgeMisses + 1 }

/-! ## Byte stores

The external byte-keyed/byte-valued engines (the in-process bigcache engine
and the remote Redis store) are modelled as association lists from keys to
byte strings; an absent key is a lookup miss. -/

/-- A byte store: the state of one external cache engine. -/
abbrev Store := List (String × Bytes)

def Store.lookup : Store → String → Option Bytes
  | [], _ => none
  | (k1, v) :: t, k => if k1 = k then some v else Store.lookup t k

/-- Insert/overwrite: the freshest binding wins on lookup. -/
def Store.insert (s : Store) (k : String) (v : Bytes) : Store := (k, v) :: s

theorem Store.lookup_insert (s : Store) (k : String) (v : Bytes) :
    Store.lookup (Store.insert s k v) k = some v := by
  simp [Store.insert, Store.lookup]

/-! ## The generic tier interface (`Cache` in `tieredcache.go`)

A tier is anything implementing the `Cache` interface.  Each operation is
state-passing: it consumes the tier's state and returns the updated state
together with the Go results.  `V` is the type of decoded values (the
`interface` targets of `Get`/`Set`). -/

structure Tier (σ V : Type) where
  getBytes : σ → String → σ × Bytes × Option Err
  get : σ → String → σ × Except Err V
  setBytes : σ → String → Bytes → σ × Option Err
  set : σ → String → V → σ × Option Err

/-- The calls a TieredCache operation issues against its two sub-tiers,
recorded in order, to state which tier was consulted. -/
inductive Call where
  | localGetBytes (k : String)
  | remoteGetBytes (k : String)
  | localGet (k : String)
  | remoteGet (k : String)
  | localSetBytes (k : String) (v : Bytes)
  | remoteSetBytes (k : String) (v : Bytes)
  | localSet (k : String)
  | remoteSet (k : String)
deriving DecidableEq, Repr

/-! ## TieredCache operations (`tieredcache.go`) -/

/-- Result of `TieredCache.GetBytes`: the Go `([]byte, error)` pair, the two
updated tier states, and the sub-tier calls that were issued. -/
structure GetBytesOut (α β : Type) where
  data : Bytes
  err : Option Err
  localSt : α
  remoteSt : β
  calls : List Call

/-- `TieredCache.GetBytes` (tieredcache.go lines 102-108):
`data, err := Local.GetBytes(key); if err != nil { data, err = Remote.GetBytes(key) }`. -/
def TieredCache.getBytes {α β V : Type} (L : Tier α V) (R : Tier β V)
    (a : α) (b : β) (k : String) : GetBytesOut α β :=
  let (a1, data, err) := L.getBytes a k
  match err with
  | some _ =>
      let (b1, data1, err1) := R.getBytes b k
      ⟨data1, err1, a1, b1, [Call.localGetBytes k, Call.remoteGetBytes k]⟩
  | none => ⟨data, err, a1, b, [Call.localGetBytes k]⟩

/-- Result of `TieredCache.Get`: the decoded-value-or-error (the populated
target together with the returned Go error), updated states, updated
TieredCache metrics, and issued calls. -/
structure GetOut (α β : Type) (V : Type) where
  result : Except Err V
  localSt : α
  remoteSt : β
  metrics : Option CacheMetrics
  calls : List Call

/-- `TieredCache.Get` (tieredcache.go lines 112-125): local `Get`, fallback to
remote `Get` on error; then exactly one Hit/Miss on the TieredCache's own
metrics according to the final error. -/
def TieredCache.get {α β V : Type} (L : Tier α V) (R : Tier β V)
    (a : α) (b : β) (ms : Option CacheMetrics) (k : String) : GetOut α β V :=
  let (a1, r1) := L.get a k
  match r1 with
  | Except.error _ =>
      let (b1, r2) := R.get b k
      let ms1 := ms.map fun m =>
        match r2 with
        | Except.error _ => m.miss
        | Except.ok _ => m.hit
      ⟨r2, a1, b1, ms1, [Call.localGet k, Call.remoteGet k]⟩
  | Except.ok v =>
      let ms1 := ms.map fun m => m.hit
      ⟨Except.ok v, a1, b, ms1, [Call.localGet k]⟩

/-- Result of `TieredCache.SetBytes`. -/
structure SetBytesOut (α β : Type) where
  err : Option Err
  localSt : α
  remoteSt : β
  calls : List Call

/-- `TieredCache.SetBytes` (tieredcache.go lines 128-134):
`err := Local.SetBytes; if err == nil { err = Remote.SetBytes }`. -/
def TieredCache.setBytes {α β V : Type} (L : Tier α V) (R : Tier β V)
    (a : α) (b : β) (k : String) (v : Bytes) : SetBytesOut α β :=
  let (a1, errL) := L.setBytes a k v
  match errL with
  | none =>
      let (b1, errR) := R.setBytes b k v
      ⟨errR, a1, b1, [Call.localSetBytes k v, Call.remoteSetBytes k v]⟩
  | some e => ⟨some e, a1, b, [Call.localSetBytes k v]⟩

/-- Result of `TieredCache.Set`. -/
structure SetOut (α β : Type) where
  err : Option Err
  localSt : α
  remoteSt : β
  metrics : Option CacheMetrics
  calls : List Call

/-- `TieredCache.Set` (tieredcache.go lines 137-150): local `Set`, remote `Set`
only on local success, then Set/SetCollision on the TieredCache's own metrics
according to the final error. -/
def TieredCache.set {α β V : Type} (L : Tier α V) (R : Tier β V)
    (a : α) (b : β) (ms : Option CacheMetrics) (k : String) (v : V) : SetOut α β :=
  let (a1, errL) := L.set a k v
  match errL with
  | none =>
      let (b1, errR) := R.set b k v
      let ms1 := ms.map fun m =>
        match errR with
        | some _ => m.setCollision
        | none => m.set
      ⟨errR, a1, b1, ms1, [Call.localSet k, Call.remoteSet k]⟩
  | some e =>
      let ms1 := ms.map fun m => m.setCollision
      ⟨some e, a1, b, ms1, [Call.localSet k]⟩

/-! ## LocalCache (`localcache.go`)

The bigcache engine is external; its byte-level get/set are modelled on a
`Store`.  The `Encoder` is passed as a pair of oracle functions
`enc : V → Except Err Bytes` / `dec : Bytes → Except Err V` (decoding into
the target is modelled by returning the decoded value). -/

/-- The engine's `Get`: `lc.Cache.Get(key)` — bytes on a present key,
a non-nil error on an absent (or expired) key. -/
def bigcacheGet (s : Store) (k : String) : Bytes × Option Err :=
  match Store.lookup s k with
  | some bs => (bs, none)
  | none => ([], some "Entry not found")

/-- The engine's `Set`: `lc.Cache.Set(key, value)` — insert/overwrite. -/
def bigcacheSet (s : Store) (k : String) (v : Bytes) : Store × Option Err :=
  (Store.insert s k v, none)

/-- `LocalCache.GetBytes` (localcache.go lines 68-70): delegates to the engine. -/
def LocalCache.getBytes (s : Store) (k : String) : Store × Bytes × Option Err :=
  let (d, e) := bigcacheGet s k
  (s, d, e)

/-- `LocalCache.Get` (localcache.go lines 74-87): `GetBytes`; then, if metrics
are present, Miss when the `GetBytes` error is non-nil and Hit otherwise;
then return the `GetBytes` error, or else the `Decode` result. -/
def LocalCache.get {V : Type} (dec : Bytes → Except Err V) (s : Store)
    (ms : Option CacheMetrics) (k : String) :
    Store × Except Err V × Option CacheMetrics :=
  let (s1, data, err) := LocalCache.getBytes s k
  let ms1 := ms.map fun m => if err.isSome then m.miss else m.hit
  match err with
  | some e => (s1, Except.error e, ms1)
  | none => (s1, dec data, ms1)

/-- `LocalCache.SetBytes` (localcache.go lines 90-92): delegates to the engine. -/
def LocalCache.setBytes (s : Store) (k : String) (v : Bytes) : Store × Option Err :=
  bigcacheSet s k v

/-- `LocalCache.Set` (localcache.go lines 95-108): `Encode`; if metrics are
present, SetCollision on encode error and Set otherwise; return the encode
error, or else `SetBytes`. -/
def LocalCache.set {V : Type} (enc : V → Except Err Bytes) (s : Store)
    (ms : Option CacheMetrics) (k : String) (v : V) :
    Store × Option Err × Option CacheMetrics :=
  match enc v with
  | Except.error e => (s, some e, ms.map fun m => m.setCollision)
  | Except.ok bs =>
      let (s1, e1) := LocalCache.setBytes s k bs
      (s1, e1, ms.map fun m => m.set)

/-- The `LocalCache` value as a `Tier` for composition inside a TieredCache
(its own metrics field nil, as in the tiered tests). -/
def localTier {V : Type} (enc : V → Except Err Bytes) (dec : Bytes → Except Err V) :
    Tier Store V where
  getBytes := LocalCache.getBytes
  get s k := let (s1, r, _) := LocalCache.get dec s none k; (s1, r)
  setBytes := LocalCache.setBytes
  set s k v := let (s1, e, _) := LocalCache.set enc s none k v; (s1, e)

/-! ## LocalCacheConfig.NewCache shard validation (`localcache.go` lines 43-65) -/

structure LocalCacheConfig where
  Eviction : Nat
  TTL : Nat
  Shards : Nat
  TracingEnabled : Bool
deriving DecidableEq, Repr

/-- What `LocalCacheConfig.NewCache` does with its config: either it returns a
config error before touching the engine, or it reaches engine construction
(whose own outcome is the external `engineErr`). -/
inductive NewCacheOutcome where
  | configError (msg : String)
  | engineReached (engineErr : Option Err)
deriving DecidableEq, Repr

/-- `LocalCacheConfig.NewCache` (localcache.go lines 43-65): the guard is
literally `lcc.Shards != 0 && lcc.Shards%2 != 0`; on guard failure it returns
the formatted error without constructing the engine, otherwise it calls
`bigcache.NewBigCache` (external, outcome `engineErr`). -/
def LocalCacheConfig.newCache (lcc : LocalCacheConfig) (engineErr : Option Err) :
    NewCacheOutcome :=
  if lcc.Shards != 0 && lcc.Shards % 2 != 0 then
    NewCacheOutcome.configError
      ("shards must be power of 2 - " ++ toString lcc.Shards ++ " is invalid")
  else
    NewCacheOutcome.engineReached engineErr

/-- Power-of-two test (what the code's own comment and error message require
of a nonzero shard count). -/
def isPowerOfTwo (n : Nat) : Bool :=
  (List.range (n + 1)).any fun k => n == 2 ^ k

/-! ## RemoteCache data path (the remote cache source file)

The Redis store is external; GET/SET are modelled on a `Store` (a GET on an
absent key is the `redigo: nil returned` error surfaced by `redis.Bytes`). -/

/-- `conn.Do("GET", key)` through `redis.Bytes`. -/
def redisGet (s : Store) (k : String) : Bytes × Option Err :=
  match Store.lookup s k with
  | some bs => (bs, none)
  | none => ([], some "redigo: nil returned")

/-- `conn.Do("SET", key, value)`. -/
def redisSet (s : Store) (k : String) (v : Bytes) : Store × Option Err :=
  (Store.insert s k v, none)

/-- `RemoteCache.GetBytes` (remote cache file lines 93-112): acquires a pooled
connection and issues one GET (tracing is out of scope). -/
def RemoteCache.getBytes (s : Store) (k : String) : Store × Bytes × Option Err :=
  let (d, e) := redisGet s k
  (s, d, e)

/-- `RemoteCache.Get` (remote cache file lines 116-129): same shape as
`LocalCache.Get` — metrics from the `GetBytes` error, then decode. -/
def RemoteCache.get {V : Type} (dec : Bytes → Except Err V) (s : Store)
    (ms : Option CacheMetrics) (k : String) :
    Store × Except Err V × Option CacheMetrics :=
  let (s1, data, err) := RemoteCache.getBytes s k
  let ms1 := ms.map fun m => if err.isSome then m.miss else m.hit
  match err with
  | some e => (s1, Except.error e, ms1)
  | none => (s1, dec data, ms1)

/-- `RemoteCache.SetBytes` (remote cache file lines 132-151): one SET command. -/
def RemoteCache.setBytes (s : Store) (k : String) (v : Bytes) : Store × Option Err :=
  redisSet s k v

/-- `RemoteCache.Set` (remote cache file lines 154-167): Encode, metrics on the
encode error, then `SetBytes`. -/
def RemoteCache.set {V : Type} (enc : V → Except Err Bytes) (s : Store)
    (ms : Option CacheMetrics) (k : String) (v : V) :
    Store × Option Err × Option CacheMetrics :=
  match enc v with
  | Except.error e => (s, some e, ms.map fun m => m.setCollision)
  | Except.ok bs =>
      let (s1, e1) := RemoteCache.setBytes s k bs
      (s1, e1, ms.map fun m => m.set)

/-- The `RemoteCache` value as a `Tier` for composition inside a TieredCache. -/
def remoteTier {V : Type} (enc : V → Except Err Bytes) (dec : Bytes → Except Err V) :
    Tier Store V where
  getBytes := RemoteCache.getBytes
  get s k := let (s1, r, _) := RemoteCache.get dec s none k; (s1, r)
  setBytes := RemoteCache.setBytes
  set s k v := let (s1, e, _) := RemoteCache.set enc s none k v; (s1, e)

/-! ## RemoteCache.Delete: the fuzzy-delete protocol (remote cache file lines 172-208)

The per-call Redis connection is modelled as an oracle giving the outcome of
each command kind.  `redis.Strings(conn.Do("KEYS", key))` returns a nil slice
together with the error when the command fails. -/

structure RedisConn where
  keysCmd : String → Except Err (List String)
  multiCmd : Option Err
  delCmd : String → Option Err
  execCmd : Option Err

/-- The commands `Delete` issues on the connection, in order. -/
inductive RedisCmd where
  | keys (pattern : String)
  | multi
  | del (k : String)
  | exec
deriving DecidableEq, Repr

structure DeleteOut where
  err : Option Err
  metrics : Option CacheMetrics
  cmds : List RedisCmd
deriving Repr

/-- `RemoteCache.Delete` (remote cache file lines 172-208), line by line:
`keysToDelete, err := redis.Strings(conn.Do("KEYS", key))` — a failing KEYS
yields a nil key list; then `err = conn.Send("MULTI")` overwrites that error;
metrics look at this `err` and `len(keysToDelete)`; each matched key gets a
`conn.Send("DEL", k)` whose error is in turn overwritten; finally
`_, err = conn.Do("EXEC")` and that error is returned. -/
def RemoteCache.delete (conn : RedisConn) (ms : Option CacheMetrics) (key : String) :
    DeleteOut :=
  let keysToDelete : List String :=
    match conn.keysCmd key with
    | Except.ok ks => ks
    | Except.error _ => []
  let err1 := conn.multiCmd
  let ms1 := ms.map fun m =>
    if err1.isSome || keysToDelete.length ≤ 0 then m.deleteMiss else m.deleteHit
  let err2 := conn.execCmd
  { err := err2
    metrics := ms1
    cmds := [RedisCmd.keys key, RedisCmd.multi] ++ keysToDelete.map RedisCmd.del
      ++ [RedisCmd.exec] }

/-- The key list the pattern-match step yields (empty on a failed KEYS, since
`redis.Strings` returns nil alongside the error). -/
def matchedKeys (conn : RedisConn) (key : String) : List String :=
  match conn.keysCmd key with
  | Except.ok ks => ks
  | Except.error _ => []

/-! ## The shared pool singleton (`tieredcache.go` lines 25-33, remote cache
file lines 60-90)

`sharedCluster` holds the cluster pointer plus two `sync.Once` guards.
`RemoteCacheConfig.NewCache` runs pool construction under `onceCreate`;
`RemoteCache.Close` runs pool teardown under `onceClose`.  We count the
physical create/close actions to state the at-most-once property. -/

structure SharedClusterState where
  clusterBuilt : Bool
  onceCreateDone : Bool
  onceCloseDone : Bool
  createCount : Nat
  closeCount : Nat
deriving DecidableEq, Repr

/-- The zero value of the package-level `sharedCluster` variable. -/
def SharedClusterState.initial : SharedClusterState :=
  ⟨false, false, false, 0, 0⟩

/-- The `sharedCluster.onceCreate.Do(...)` body inside
`RemoteCacheConfig.NewCache`: builds the cluster exactly when the Once has not
fired yet. -/
def RemoteCacheConfig.newCachePool (st : SharedClusterState) : SharedClusterState :=
  if st.onceCreateDone then st
  else { st with
    clusterBuilt := true
    onceCreateDone := true
    createCount := st.createCount + 1 }

/-- `RemoteCache.Close` (remote cache file lines 86-90): tears the pool down
under `sharedCluster.onceClose`. -/
def RemoteCache.close (st : SharedClusterState) : SharedClusterState :=
  if st.onceCloseDone then st
  else { st with onceCloseDone := true, closeCount := st.closeCount + 1 }

/-- One process-level event touching the shared pool. -/
inductive PoolEvent where
  | newCache
  | closeCall
deriving DecidableEq, Repr

def runPoolEvents (st : SharedClusterState) : List PoolEvent → SharedClusterState
  | [] => st
  | PoolEvent.newCache :: t => runPoolEvents (RemoteCacheConfig.newCachePool st) t
  | PoolEvent.closeCall :: t => runPoolEvents (RemoteCache.close st) t

/-! ## TieredCache.Close (`tieredcache.go` lines 97-99)

`tc.Remote.(RemoteCache).Close()`: a Go type assertion on the dynamic type of
the `Remote` interface value.  The dynamic type is one of the package's
`Cache` implementations; any type other than the concrete `RemoteCache`
makes the assertion panic, modelled as `none`. -/

inductive CacheValue where
  | remoteCache (tracingEnabled : Bool)
  | localCache (s : Store)
  | mockCache (s : Store)
deriving DecidableEq, Repr

/-- `TieredCache.Close`: `some` of the post-close pool state when the type
assertion succeeds, `none` (panic: interface conversion) otherwise. -/
def TieredCache.close (remote : CacheValue) (pool : SharedClusterState) :
    Option SharedClusterState :=
  match remote with
  | CacheValue.remoteCache _ => some (RemoteCache.close pool)
  | CacheValue.localCache _ => none
  | CacheValue.mockCache _ => none

/-! ## Concrete tiers used by witnesses -/

/-- A tier all of whose operations fail. -/
def downTier : Tier Unit Nat where
  getBytes _ _ := ((), [], some "down")
  get _ _ := ((), Except.error "down")
  setBytes _ _ _ := ((), some "down")
  set _ _ _ := ((), some "down")

/-- A tier all of whose operations succeed, reads returning a fixed value. -/
def upTier : Tier Unit Nat where
  getBytes _ _ := ((), [7], none)
  get _ _ := ((), Except.ok 7)
  setBytes _ _ _ := ((), none)
  set _ _ _ := ((), none)

/-! ## Theorems -/

/-- C1: `TieredCache.GetBytes` first calls `Local.GetBytes`; it calls
`Remote.GetBytes` exactly when the local call returned a non-nil error, and in
that case the value and error returned are exactly Remote's; when the local
call succeeds, its result is returned and Remote is not consulted. -/
theorem tiered_getBytes_fallback {α β V : Type} (L : Tier α V) (R : Tier β V)
    (a : α) (b : β) (k : String) :
    (TieredCache.getBytes L R a b k).calls.head? = some (Call.localGetBytes k) ∧
    ((Call.remoteGetBytes k ∈ (TieredCache.getBytes L R a b k).calls) ↔
      (L.getBytes a k).2.2 ≠ none) ∧
    ((L.getBytes a k).2.2 = none →
      (TieredCache.getBytes L R a b k).data = (L.getBytes a k).2.1 ∧
      (TieredCache.getBytes L R a b k).err = none ∧
      (TieredCache.getBytes L R a b k).calls = [Call.localGetBytes k]) ∧
    (∀ e, (L.getBytes a k).2.2 = some e →
      (TieredCache.getBytes L R a b k).data = (R.getBytes b k).2.1 ∧
      (TieredCache.getBytes L R a b k).err = (R.getBytes b k).2.2 ∧
      (TieredCache.getBytes L R a b k).calls =
        [Call.localGetBytes k, Call.remoteGetBytes k]) := by
  rcases hL : L.getBytes a k with ⟨a1, data, err⟩
  rcases err with _ | e
  · refine ⟨?_, ?_, ?_, ?_⟩ <;>
      simp [TieredCache.getBytes, hL]
  · rcases hR : R.getBytes b k with ⟨b1, data1, err1⟩
    refine ⟨?_, ?_, ?_, ?_⟩ <;>
      simp [TieredCache.getBytes, hL, hR]

/-- C1 witness: with a failing local tier and a succeeding remote tier, the
fallback returns exactly the remote result. -/
theorem tiered_getBytes_fallback_witness :
    (downTier.getBytes () "k").2.2 = some "down" ∧
    (TieredCache.getBytes downTier upTier () () "k").data = [7] ∧
    (TieredCache.getBytes downTier upTier () () "k").err = none ∧
    (TieredCache.getBytes downTier upTier () () "k").calls =
      [Call.localGetBytes "k", Call.remoteGetBytes "k"] := by
  have h := (tiered_getBytes_fallback downTier upTier () () "k").2.2.2 "down" rfl
  exact ⟨rfl, h.1, h.2.1, h.2.2⟩

/-- C2: `TieredCache.SetBytes` and `TieredCache.Set` write to Local first and
call Remote only when the Local write succeeded; the returned error is Local's
error if Local failed, else Remote's; and when Local succeeds and Remote
fails, the Local store still holds the value written (no rollback). -/
theorem tiered_set_writeThrough :
    (∀ {α β V : Type} (L : Tier α V) (R : Tier β V) (a : α) (b : β)
        (k : String) (v : Bytes),
      (TieredCache.setBytes L R a b k v).calls.head? = some (Call.localSetBytes k v) ∧
      ((Call.remoteSetBytes k v ∈ (TieredCache.setBytes L R a b k v).calls) ↔
        (L.setBytes a k v).2 = none) ∧
      (∀ e, (L.setBytes a k v).2 = some e →
        (TieredCache.setBytes L R a b k v).err = some e ∧
        (TieredCache.setBytes L R a b k v).remoteSt = b) ∧
      ((L.setBytes a k v).2 = none →
        (TieredCache.setBytes L R a b k v).err = (R.setBytes b k v).2)) ∧
    (∀ {α β V : Type} (L : Tier α V) (R : Tier β V) (a : α) (b : β)
        (ms : Option CacheMetrics) (k : String) (v : V),
      (TieredCache.set L R a b ms k v).calls.head? = some (Call.localSet k) ∧
      ((Call.remoteSet k ∈ (TieredCache.set L R a b ms k v).calls) ↔
        (L.set a k v).2 = none) ∧
      (∀ e, (L.set a k v).2 = some e →
        (TieredCache.set L R a b ms k v).err = some e ∧
        (TieredCache.set L R a b ms k v).remoteSt = b) ∧
      ((L.set a k v).2 = none →
        (TieredCache.set L R a b ms k v).err = (R.set b k v).2)) ∧
    (∀ {β : Type} (R : Tier β Bytes) (s : Store) (b : β) (k : String)
        (v : Bytes) (e : Err),
      (R.setBytes b k v).2 = some e →
      (TieredCache.setBytes (localTier Except.ok Except.ok) R s b k v).err = some e ∧
      Store.lookup
        (TieredCache.setBytes (localTier Except.ok Except.ok) R s b k v).localSt k =
        some v) ∧
    (∀ {β V : Type} (enc : V → Except Err Bytes) (dec : Bytes → Except Err V)
        (R : Tier β V) (s : Store) (b : β) (ms : Option CacheMetrics)
        (k : String) (v : V) (bs : Bytes) (e : Err),
      enc v = Except.ok bs → (R.set b k v).2 = some e →
      (TieredCache.set (localTier enc dec) R s b ms k v).err = some e ∧
      Store.lookup (TieredCache.set (localTier enc dec) R s b ms k v).localSt k =
        some bs) := by
  refine ⟨?_, ?_, ?_, ?_⟩
  · intro α β V L R a b k v
    rcases hL : L.setBytes a k v with ⟨a1, errL⟩
    rcases errL with _ | e
    · rcases hR : R.setBytes b k v with ⟨b1, errR⟩
      refine ⟨?_, ?_, ?_, ?_⟩ <;>
        simp [TieredCache.setBytes, hL, hR]
    · refine ⟨?_, ?_, ?_, ?_⟩ <;>
        simp [TieredCache.setBytes, hL]
  · intro α β V L R a b ms k v
    rcases hL : L.set a k v with ⟨a1, errL⟩
    rcases errL with _ | e
    · rcases hR : R.set b k v with ⟨b1, errR⟩
      refine ⟨?_, ?_, ?_, ?_⟩ <;>
        simp [TieredCache.set, hL, hR]
    · refine ⟨?_, ?_, ?_, ?_⟩ <;>
        simp [TieredCache.set, hL]
  · intro β R s b k v e hR
    rcases hR2 : R.setBytes b k v with ⟨b1, errR⟩
    rw [hR2] at hR
    simp only at hR
    subst hR
    constructor <;>
      simp [TieredCache.setBytes, localTier, LocalCache.setBytes, bigcacheSet,
        hR2, Store.lookup_insert]
  · intro β V enc dec R s b ms k v bs e henc hR
    rcases hR2 : R.set b k v with ⟨b1, errR⟩
    rw [hR2] at hR
    simp only at hR
    subst hR
    constructor <;>
      simp [TieredCache.set, localTier, LocalCache.set, LocalCache.setBytes,
        bigcacheSet, henc, hR2, Store.lookup_insert]

/-- C2 witness: a concrete instance — Local (a store) succeeds, Remote is
forced to fail — the returned error is Remote's and the local store holds the
value. -/
theorem tiered_set_writeThrough_witness :
    (downTier.set () "k" 9).2 = some "down" ∧
    (TieredCache.set (localTier (fun n => Except.ok [n])
        (fun bs => Except.ok bs.length) : Tier Store Nat) downTier
        [] () none "k" 9).err = some "down" ∧
    Store.lookup (TieredCache.set (localTier (fun n => Except.ok [n])
        (fun bs => Except.ok bs.length) : Tier Store Nat) downTier
        [] () none "k" 9).localSt "k" = some [9] := by
  have h := tiered_set_writeThrough.2.2.2
    (fun n : Nat => Except.ok [n]) (fun bs => Except.ok bs.length)
    downTier [] () none "k" 9 [9] "down" rfl rfl
  exact ⟨rfl, h.1, h.2⟩

/-- C3: the shard guard in `LocalCacheConfig.NewCache` is a parity check, not
a power-of-two check: `Shards = 6` (nonzero, not a power of two) passes the
validation and reaches engine construction, contradicting the stated
power-of-two requirement; `Shards = 3` fails before the engine, while
`Shards = 0` and `Shards = 4` both reach the engine. -/
theorem localcache_shard_validation_parity_only :
    LocalCacheConfig.newCache ⟨0, 0, 6, false⟩ none =
      NewCacheOutcome.engineReached none ∧
    isPowerOfTwo 6 = false ∧
    LocalCacheConfig.newCache ⟨0, 0, 3, false⟩ none =
      NewCacheOutcome.configError "shards must be power of 2 - 3 is invalid" ∧
    LocalCacheConfig.newCache ⟨0, 0, 0, false⟩ none =
      NewCacheOutcome.engineReached none ∧
    LocalCacheConfig.newCache ⟨0, 0, 4, false⟩ none =
      NewCacheOutcome.engineReached none := by
  refine ⟨rfl, by decide, ?_, rfl, rfl⟩
  rfl

/-! ## C4: Get metrics versus decode failure -/

def c4Store : Store := [("k", [1])]

def c4Dec : Bytes → Except Err Nat := fun _ => Except.error "gob: decode failure"

/-- C4 counterexample: with the key present (so `GetBytes` succeeds) but the
decoder failing, `LocalCache.Get` returns the decode error yet records a Hit
and no Miss — refuting the claim that a decode failure records a Miss. -/
theorem local_get_decode_failure_records_hit :
    (LocalCache.get c4Dec c4Store (some CacheMetrics.zero) "k").2.1 =
      Except.error "gob: decode failure" ∧
    (LocalCache.get c4Dec c4Store (some CacheMetrics.zero) "k").2.2 =
      some { CacheMetrics.zero with hits := 1 } ∧
    (LocalCache.get c4Dec c4Store (some CacheMetrics.zero) "k").2.2 ≠
      some { CacheMetrics.zero with misses := 1 } := by
  refine ⟨rfl, rfl, by decide⟩

/-- C4 amended: `LocalCache.Get` and `RemoteCache.Get` record exactly one Miss
when the byte-lookup step fails and exactly one Hit when the byte-lookup step
succeeds, regardless of whether the subsequent decode succeeds; a decode
failure is still returned as the operation's error. -/
theorem get_metrics_follow_lookup :
    (∀ {V : Type} (dec : Bytes → Except Err V) (s : Store) (m : CacheMetrics)
        (k : String),
      (Store.lookup s k = none →
        (LocalCache.get dec s (some m) k).2.2 = some m.miss ∧
        (LocalCache.get dec s (some m) k).2.1 = Except.error "Entry not found") ∧
      (∀ bs, Store.lookup s k = some bs →
        (LocalCache.get dec s (some m) k).2.2 = some m.hit ∧
        (LocalCache.get dec s (some m) k).2.1 = dec bs)) ∧
    (∀ {V : Type} (dec : Bytes → Except Err V) (s : Store) (m : CacheMetrics)
        (k : String),
      (Store.lookup s k = none →
        (RemoteCache.get dec s (some m) k).2.2 = some m.miss ∧
        (RemoteCache.get dec s (some m) k).2.1 = Except.error "redigo: nil returned") ∧
      (∀ bs, Store.lookup s k = some bs →
        (RemoteCache.get dec s (some m) k).2.2 = some m.hit ∧
        (RemoteCache.get dec s (some m) k).2.1 = dec bs)) := by
  constructor
  · intro V dec s m k
    constructor
    · intro h
      constructor <;>
        simp [LocalCache.get, LocalCache.getBytes, bigcacheGet, h]
    · intro bs h
      constructor <;>
        simp [LocalCache.get, LocalCache.getBytes, bigcacheGet, h]
  · intro V dec s m k
    constructor
    · intro h
      constructor <;>
        simp [RemoteCache.get, RemoteCache.getBytes, redisGet, h]
    · intro bs h
      constructor <;>
        simp [RemoteCache.get, RemoteCache.getBytes, redisGet, h]

/-- C4 amended witness: on a concrete store holding the key and a failing
decoder, the recorded metric is a Hit and the returned error is the decode
error. -/
theorem get_metrics_follow_lookup_witness :
    (LocalCache.get (fun _ => (Except.error "bad" : Except Err Nat))
        [("w", [2])] (some CacheMetrics.zero) "w").2.2 =
      some CacheMetrics.zero.hit ∧
    (LocalCache.get (fun _ => (Except.error "bad" : Except Err Nat))
        [("w", [2])] (some CacheMetrics.zero) "w").2.1 = Except.error "bad" := by
  have h := (get_metrics_follow_lookup.1
    (fun _ => (Except.error "bad" : Except Err Nat))
    [("w", [2])] CacheMetrics.zero "w").2 [2] (by decide)
  exact ⟨h.1, h.2⟩

/-! ## C5, C6: the fuzzy-delete protocol -/

def c5Conn : RedisConn where
  keysCmd := fun _ => Except.ok ["a"]
  multiCmd := some "use of closed network connection"
  delCmd := fun _ => none
  execCmd := none

/-- C5 counterexample: the pattern-match step succeeds with one matching key,
yet `Delete` records DeleteMiss (not DeleteHit), because the metric decision
reads the error of the MULTI send, which here fails — refuting the claim that
DeleteHit is recorded whenever the match step succeeds with at least one key. -/
theorem remote_delete_multi_failure_records_miss :
    c5Conn.keysCmd "pat" = Except.ok ["a"] ∧
    (RemoteCache.delete c5Conn (some CacheMetrics.zero) "pat").metrics =
      some { CacheMetrics.zero with deleteMisses := 1 } ∧
    (RemoteCache.delete c5Conn (some CacheMetrics.zero) "pat").metrics ≠
      some { CacheMetrics.zero with deleteHits := 1 } := by
  refine ⟨rfl, rfl, by decide⟩

/-- C5 amended: `Delete` records DeleteMiss exactly when the MULTI send fails
or the match step yields zero keys (a failed match yields zero keys, its error
being discarded), and DeleteHit exactly otherwise; in particular a failed
match step always records DeleteMiss. -/
theorem remote_delete_metrics_follow_multi_and_matches :
    ∀ (conn : RedisConn) (m : CacheMetrics) (key : String),
      ((RemoteCache.delete conn (some m) key).metrics = some m.deleteMiss ↔
        (conn.multiCmd ≠ none ∨ matchedKeys conn key = [])) ∧
      ((RemoteCache.delete conn (some m) key).metrics = some m.deleteHit ↔
        (conn.multiCmd = none ∧ matchedKeys conn key ≠ [])) ∧
      (∀ e, conn.keysCmd key = Except.error e →
        (RemoteCache.delete conn (some m) key).metrics = some m.deleteMiss) := by
  intro conn m key
  have hne : m.deleteMiss ≠ m.deleteHit := by
    intro h
    have := congrArg CacheMetrics.deleteMisses h
    simp [CacheMetrics.deleteMiss, CacheMetrics.deleteHit] at this
  rcases hmc : conn.multiCmd with _ | e1
  · rcases hk : conn.keysCmd key with e2 | ks
    · refine ⟨?_, ?_, ?_⟩ <;>
        simp [RemoteCache.delete, matchedKeys, hmc, hk, hne, Ne.symm hne]
    · rcases ks with _ | ⟨k1, kt⟩ <;>
        refine ⟨?_, ?_, ?_⟩ <;>
          simp [RemoteCache.delete, matchedKeys, hmc, hk, hne, Ne.symm hne]
  · rcases hk : conn.keysCmd key with e2 | ks <;>
      refine ⟨?_, ?_, ?_⟩ <;>
        simp [RemoteCache.delete, matchedKeys, hmc, hk, hne, Ne.symm hne]

def c5FailKeysConn : RedisConn where
  keysCmd := fun _ => Except.error "MOVED 3999"
  multiCmd := none
  delCmd := fun _ => none
  execCmd := none

/-- C5 amended witness: a failed match step records DeleteMiss. -/
theorem remote_delete_metrics_follow_multi_and_matches_witness :
    (RemoteCache.delete c5FailKeysConn (some CacheMetrics.zero) "p").metrics =
      some CacheMetrics.zero.deleteMiss :=
  (remote_delete_metrics_follow_multi_and_matches c5FailKeysConn
    CacheMetrics.zero "p").2.2 "MOVED 3999" rfl

/-- C6: `Delete` never short-circuits on a failed pattern-match step: the
command trace still opens MULTI and runs EXEC, and the error returned to the
caller is always the EXEC error — never the match-step error. -/
theorem remote_delete_no_short_circuit :
    (∀ (conn : RedisConn) (ms : Option CacheMetrics) (key : String),
      (RemoteCache.delete conn ms key).err = conn.execCmd ∧
      RedisCmd.multi ∈ (RemoteCache.delete conn ms key).cmds ∧
      RedisCmd.exec ∈ (RemoteCache.delete conn ms key).cmds) ∧
    (∀ (conn : RedisConn) (ms : Option CacheMetrics) (key : String) (e : Err),
      conn.keysCmd key = Except.error e →
      (RemoteCache.delete conn ms key).cmds =
        [RedisCmd.keys key, RedisCmd.multi, RedisCmd.exec]) := by
  constructor
  · intro conn ms key
    refine ⟨rfl, ?_, ?_⟩ <;>
      simp [RemoteCache.delete]
  · intro conn ms key e hk
    simp [RemoteCache.delete, hk]

def c6Conn : RedisConn where
  keysCmd := fun _ => Except.error "CLUSTERDOWN"
  multiCmd := none
  delCmd := fun _ => none
  execCmd := some "EXECABORT"

/-- C6 witness: with a failing match step, the trace is KEYS, MULTI, EXEC and
the returned error is the EXEC error. -/
theorem remote_delete_no_short_circuit_witness :
    (RemoteCache.delete c6Conn none "p").cmds =
      [RedisCmd.keys "p", RedisCmd.multi, RedisCmd.exec] ∧
    (RemoteCache.delete c6Conn none "p").err = some "EXECABORT" :=
  ⟨remote_delete_no_short_circuit.2 c6Conn none "p" "CLUSTERDOWN" rfl,
    (remote_delete_no_short_circuit.1 c6Conn none "p").1⟩

/-! ## C7: Set-then-Get round-trip -/

/-- C7: for an encodable value (one the encoder serializes and the decoder
restores), `Set(k, v)` followed by `Get(k)` succeeds and yields `v`, for the
Local-only, Remote-only and Tiered configurations. -/
theorem set_get_roundtrip :
    ∀ {V : Type} (enc : V → Except Err Bytes) (dec : Bytes → Except Err V)
      (k : String) (v : V) (bs : Bytes),
      enc v = Except.ok bs → dec bs = Except.ok v →
      (∀ (s : Store) (ms1 ms2 : Option CacheMetrics),
        (LocalCache.set enc s ms1 k v).2.1 = none ∧
        (LocalCache.get dec (LocalCache.set enc s ms1 k v).1 ms2 k).2.1 =
          Except.ok v) ∧
      (∀ (s : Store) (ms1 ms2 : Option CacheMetrics),
        (RemoteCache.set enc s ms1 k v).2.1 = none ∧
        (RemoteCache.get dec (RemoteCache.set enc s ms1 k v).1 ms2 k).2.1 =
          Except.ok v) ∧
      (∀ (ls rs : Store) (ms1 ms2 : Option CacheMetrics),
        (TieredCache.set (localTier enc dec) (remoteTier enc dec)
          ls rs ms1 k v).err = none ∧
        (TieredCache.get (localTier enc dec) (remoteTier enc dec)
          (TieredCache.set (localTier enc dec) (remoteTier enc dec)
            ls rs ms1 k v).localSt
          (TieredCache.set (localTier enc dec) (remoteTier enc dec)
            ls rs ms1 k v).remoteSt
          ms2 k).result = Except.ok v) := by
  intro V enc dec k v bs henc hdec
  refine ⟨?_, ?_, ?_⟩
  · intro s ms1 ms2
    constructor <;>
      simp [LocalCache.set, LocalCache.setBytes, bigcacheSet, henc,
        LocalCache.get, LocalCache.getBytes, bigcacheGet, Store.lookup_insert, hdec]
  · intro s ms1 ms2
    constructor <;>
      simp [RemoteCache.set, RemoteCache.setBytes, redisSet, henc,
        RemoteCache.get, RemoteCache.getBytes, redisGet, Store.lookup_insert, hdec]
  · intro ls rs ms1 ms2
    constructor <;>
      simp [TieredCache.set, TieredCache.get, localTier, remoteTier,
        LocalCache.set, LocalCache.setBytes, bigcacheSet,
        RemoteCache.set, RemoteCache.setBytes, redisSet, henc,
        LocalCache.get, LocalCache.getBytes, bigcacheGet,
        Store.lookup_insert, hdec]

def c7Enc : Nat → Except Err Bytes := fun n => Except.ok [n]

def c7Dec : Bytes → Except Err Nat := fun bs =>
  match bs with
  | [n] => Except.ok n
  | _ => Except.error "wrong length"

/-- C7 witness: a concrete invertible encoder round-trips through all three
configurations. -/
theorem set_get_roundtrip_witness :
    (LocalCache.get c7Dec (LocalCache.set c7Enc [] none "k" 5).1 none "k").2.1 =
      Except.ok 5 ∧
    (RemoteCache.get c7Dec (RemoteCache.set c7Enc [] none "k" 5).1 none "k").2.1 =
      Except.ok 5 ∧
    (TieredCache.get (localTier c7Enc c7Dec) (remoteTier c7Enc c7Dec)
      (TieredCache.set (localTier c7Enc c7Dec) (remoteTier c7Enc c7Dec)
        [] [] none "k" 5).localSt
      (TieredCache.set (localTier c7Enc c7Dec) (remoteTier c7Enc c7Dec)
        [] [] none "k" 5).remoteSt
      none "k").result = Except.ok 5 := by
  have h := set_get_roundtrip c7Enc c7Dec "k" 5 [5] rfl rfl
  exact ⟨(h.1 [] none none).2, (h.2.1 [] none none).2, (h.2.2 [] [] none none).2⟩

/-! ## C8: no promotion on remote-only hits -/

/-- C8: when a key is held only by the Remote tier, `TieredCache.GetBytes`
(and `Get`) return the remote value while the Local tier's store is left
completely unchanged — no promotion. -/
theorem tiered_get_no_promotion :
    ∀ {V : Type} (enc : V → Except Err Bytes) (dec : Bytes → Except Err V)
      (ls rs : Store) (k : String) (bs : Bytes),
      Store.lookup ls k = none → Store.lookup rs k = some bs →
      ((TieredCache.getBytes (localTier enc dec) (remoteTier enc dec) ls rs k).data
          = bs ∧
        (TieredCache.getBytes (localTier enc dec) (remoteTier enc dec) ls rs k).err
          = none ∧
        (TieredCache.getBytes (localTier enc dec) (remoteTier enc dec) ls rs k).localSt
          = ls ∧
        (TieredCache.getBytes (localTier enc dec) (remoteTier enc dec) ls rs k).calls
          = [Call.localGetBytes k, Call.remoteGetBytes k]) ∧
      (∀ v, dec bs = Except.ok v →
        (TieredCache.get (localTier enc dec) (remoteTier enc dec)
          ls rs none k).result = Except.ok v ∧
        (TieredCache.get (localTier enc dec) (remoteTier enc dec)
          ls rs none k).localSt = ls) := by
  intro V enc dec ls rs k bs hl hr
  constructor
  · refine ⟨?_, ?_, ?_, ?_⟩ <;>
      simp [TieredCache.getBytes, localTier, remoteTier,
        LocalCache.getBytes, bigcacheGet, RemoteCache.getBytes, redisGet, hl, hr]
  · intro v hdec
    constructor <;>
      simp [TieredCache.get, localTier, remoteTier,
        LocalCache.get, LocalCache.getBytes, bigcacheGet,
        RemoteCache.get, RemoteCache.getBytes, redisGet, hl, hr, hdec]

/-- C8 witness: a remote-only key is served from Remote and the local store is
untouched. -/
theorem tiered_get_no_promotion_witness :
    (TieredCache.getBytes (localTier c7Enc c7Dec) (remoteTier c7Enc c7Dec)
      [("other", [0])] [("k", [5])] "k").data = [5] ∧
    (TieredCache.getBytes (localTier c7Enc c7Dec) (remoteTier c7Enc c7Dec)
      [("other", [0])] [("k", [5])] "k").localSt = [("other", [0])] ∧
    (TieredCache.get (localTier c7Enc c7Dec) (remoteTier c7Enc c7Dec)
      [("other", [0])] [("k", [5])] none "k").result = Except.ok 5 := by
  have h := tiered_get_no_promotion c7Enc c7Dec
    [("other", [0])] [("k", [5])] "k" [5] (by decide) (by decide)
  exact ⟨h.1.1, h.1.2.2.1, (h.2 5 rfl).1⟩

/-! ## C9: at-most-once pool construction and teardown -/

/-- The lifecycle invariant tying the counters to the `sync.Once` flags. -/
def poolInv (st : SharedClusterState) : Prop :=
  (st.onceCreateDone = false → st.createCount = 0) ∧ st.createCount ≤ 1 ∧
  (st.onceCloseDone = false → st.closeCount = 0) ∧ st.closeCount ≤ 1

theorem runPoolEvents_inv (evs : List PoolEvent) (st : SharedClusterState)
    (h : poolInv st) : poolInv (runPoolEvents st evs) := by
  induction evs generalizing st with
  | nil => exact h
  | cons ev t ih =>
      cases ev
      · refine ih _ ?_
        obtain ⟨h1, h2, h3, h4⟩ := h
        by_cases hc : st.onceCreateDone
        · simp [RemoteCacheConfig.newCachePool, hc]
          exact ⟨h1, h2, h3, h4⟩
        · simp [RemoteCacheConfig.newCachePool, hc, poolInv]
          have h0 := h1 (by simpa using hc)
          exact ⟨by omega, h3, h4⟩
      · refine ih _ ?_
        obtain ⟨h1, h2, h3, h4⟩ := h
        by_cases hc : st.onceCloseDone
        · simp [RemoteCache.close, hc]
          exact ⟨h1, h2, h3, h4⟩
        · simp [RemoteCache.close, hc, poolInv]
          have h0 := h3 (by simpa using hc)
          exact ⟨h1, h2, by omega⟩

/-- C9: for any sequence of `RemoteCacheConfig.NewCache` and
`RemoteCache.Close` calls starting from the package's initial shared-cluster
state, the pool's physical create and close actions each execute at most
once. -/
theorem shared_pool_create_close_at_most_once :
    ∀ evs : List PoolEvent,
      (runPoolEvents SharedClusterState.initial evs).createCount ≤ 1 ∧
      (runPoolEvents SharedClusterState.initial evs).closeCount ≤ 1 := by
  intro evs
  have h := runPoolEvents_inv evs SharedClusterState.initial
    ⟨fun _ => rfl, by simp [SharedClusterState.initial], fun _ => rfl,
      by simp [SharedClusterState.initial]⟩
  exact ⟨h.2.1, h.2.2.2⟩

/-! ## C10: Close requires the concrete RemoteCache type -/

/-- C10: `TieredCache.Close` delegates to `RemoteCache.Close` when the Remote
tier's dynamic type is the concrete `RemoteCache`; with any other `Cache`
implementation in the Remote field, the type assertion panics (`none`). -/
theorem tiered_close_requires_remotecache :
    (∀ (tracing : Bool) (pool : SharedClusterState),
      TieredCache.close (CacheValue.remoteCache tracing) pool =
        some (RemoteCache.close pool)) ∧
    (∀ (remote : CacheValue) (pool : SharedClusterState),
      (∀ tracing, remote ≠ CacheValue.remoteCache tracing) →
      TieredCache.close remote pool = none) := by
  constructor
  · intro tracing pool
    rfl
  · intro remote pool h
    cases remote with
    | remoteCache tracing => exact absurd rfl (h tracing)
    | localCache s => rfl
    | mockCache s => rfl

/-- C10 witness: closing a TieredCache whose Remote tier is a test double
panics, while a genuine RemoteCache closes the shared pool. -/
theorem tiered_close_requires_remotecache_witness :
    TieredCache.close (CacheValue.mockCache []) SharedClusterState.initial = none ∧
    TieredCache.close (CacheValue.remoteCache false) SharedClusterState.initial =
      some (RemoteCache.close SharedClusterState.initial) :=
  ⟨tiered_close_requires_remotecache.2 (CacheValue.mockCache [])
      SharedClusterState.initial (fun _ h => CacheValue.noConfusion h),
    tiered_close_requires_remotecache.1 false SharedClusterState.initial⟩

end TieredCacheProof
